import Mathlib

/-!
Shallow embedding of the core game logic of the pixel-survivor repository
(`src/scripts/round_manager.py`, `weapon.py`, `player.py`, `powerup.py`,
`inventory.py`, `upgrade_shop.py`, `world.py`, `save_manager.py`).

Python floats and ints are modelled as `ℚ` and `ℤ`; `int(...)` truncation
toward zero is `pyInt`.  Mutating methods become pure state-transformer
functions returning the updated object (together with the Python return
value where there is one).
-/

/-- Python `int()` applied to a rational: truncation toward zero. -/
def pyInt (q : ℚ) : ℤ := if q < 0 then -⌊-q⌋ else ⌊q⌋

/-- The dict returned by `RoundManager.get_enemy_stats` (keys `speed`, `hp`,
`damage`): `speed` stays a float, `hp` and `damage` are passed through
`int()`. -/
structure EnemyStats where
  speed : ℚ
  hp : ℤ
  damage : ℤ
deriving Repr, DecidableEq

/-- `self.spawn_interval = 1.5` set in `RoundManager.__init__`. -/
def spawn_interval : ℚ := 3 / 2

/-- `self.break_duration = 3.0` set in `RoundManager.__init__`. -/
def break_duration : ℚ := 3

/-- `self.base_enemy_hp = 30` from `RoundManager.__init__`. -/
def base_enemy_hp : ℚ := 30

/-- `self.base_enemy_speed = 80` from `RoundManager.__init__`. -/
def base_enemy_speed : ℚ := 80

/-- `self.base_enemy_damage = 10` from `RoundManager.__init__`. -/
def base_enemy_damage : ℚ := 10

/-- `self.hp_scale = 1.15` from `RoundManager.__init__`. -/
def hp_scale : ℚ := 23 / 20

/-- `self.speed_scale = 1.05` from `RoundManager.__init__`. -/
def speed_scale : ℚ := 21 / 20

/-- `self.damage_scale = 1.10` from `RoundManager.__init__`. -/
def damage_scale : ℚ := 11 / 10

/-- Mutable state of `RoundManager` (round_manager.py).  The screen size
fields and the constant fields above are omitted from the state because the
code never writes them after `__init__`. -/
structure RoundManager where
  current_round : ℤ
  enemies_per_round : ℤ
  enemies_spawned_this_round : ℤ
  round_active : Bool
  round_complete : Bool
  spawn_timer : ℚ
  break_timer : ℚ
deriving Repr, DecidableEq

/-- `RoundManager.__init__`: round 1, 5 enemies per round, inactive, all
timers zero. -/
def RoundManager.init : RoundManager :=
  { current_round := 1
    enemies_per_round := 5
    enemies_spawned_this_round := 0
    round_active := false
    round_complete := false
    spawn_timer := 0
    break_timer := 0 }

/-- `RoundManager.start_round`. -/
def RoundManager.start_round (m : RoundManager) : RoundManager :=
  { m with
    round_active := true
    round_complete := false
    enemies_spawned_this_round := 0
    spawn_timer := 0 }

/-- `RoundManager.complete_round`. -/
def RoundManager.complete_round (m : RoundManager) : RoundManager :=
  { m with
    round_complete := true
    round_active := false
    current_round := m.current_round + 1
    enemies_per_round := m.enemies_per_round + 2
    break_timer := break_duration }

/-- `RoundManager.get_enemy_stats`: geometric difficulty scaling with
exponent `current_round - 1` (Python `**` on an integer exponent, i.e.
`zpow`), with `int()` truncation on hp and damage. -/
def RoundManager.get_enemy_stats (m : RoundManager) : EnemyStats :=
  let rounds_passed : ℤ := m.current_round - 1
  { speed := base_enemy_speed * speed_scale ^ rounds_passed
    hp := pyInt (base_enemy_hp * hp_scale ^ rounds_passed)
    damage := pyInt (base_enemy_damage * damage_scale ^ rounds_passed) }

/-- `RoundManager.update dt active_enemies_count`: returns the updated
manager and the optional enemy-spawn stats (Python returns the dict or
`None`). -/
def RoundManager.update (m : RoundManager) (dt : ℚ)
    (active_enemies_count : ℤ) : RoundManager × Option EnemyStats :=
  if !m.round_active then
    let m1 := { m with break_timer := m.break_timer - dt }
    if m1.break_timer ≤ 0 then (m1.start_round, none) else (m1, none)
  else if m.enemies_spawned_this_round ≥ m.enemies_per_round ∧
      active_enemies_count = 0 then
    (m.complete_round, none)
  else if m.enemies_spawned_this_round < m.enemies_per_round then
    let m1 := { m with spawn_timer := m.spawn_timer - dt }
    if m1.spawn_timer ≤ 0 then
      let m2 := { m1 with
        enemies_spawned_this_round := m1.enemies_spawned_this_round + 1
        spawn_timer := spawn_interval }
      (m2, some m2.get_enemy_stats)
    else (m1, none)
  else (m, none)

/-- The dict returned by `RoundManager.get_round_info`. -/
structure RoundInfo where
  round : ℤ
  enemies_remaining : ℤ
  in_break : Bool
  break_time : ℚ
deriving Repr, DecidableEq

/-- `RoundManager.get_round_info`. -/
def RoundManager.get_round_info (m : RoundManager) : RoundInfo :=
  { round := m.current_round
    enemies_remaining :=
      max 0 (m.enemies_per_round - m.enemies_spawned_this_round)
    in_break := !m.round_active
    break_time := max 0 m.break_timer }

/-- Projection of the `Bullet` object (bullet.py) onto the fields the
weapon logic stamps: position, firing angle, speed and damage.  The derived
velocity components and the cosmetic trail are omitted. -/
structure Bullet where
  x : ℚ
  y : ℚ
  angle : ℚ
  speed : ℚ
  damage : ℤ
deriving Repr, DecidableEq

/-- `Weapon` state (weapon.py).  The cosmetic `name` and `color` fields are
omitted; all stat fields come from the catalog in `Weapon.__init__`. -/
structure Weapon where
  weapon_type : String
  damage : ℤ
  fire_rate : ℚ
  bullet_speed : ℚ
  bullet_count : ℕ
  spread_angle : ℚ
  cooldown_timer : ℚ
deriving Repr, DecidableEq

/-- `Weapon.__init__` / `create_weapon`: the weapon stat catalog; any
unknown type string falls back to the pistol stats (keeping the given
`weapon_type`). -/
def create_weapon (weapon_type : String) : Weapon :=
  if weapon_type = "PISTOL" then
    { weapon_type, damage := 10, fire_rate := 3/20, bullet_speed := 400,
      bullet_count := 1, spread_angle := 0, cooldown_timer := 0 }
  else if weapon_type = "SHOTGUN" then
    { weapon_type, damage := 8, fire_rate := 4/5, bullet_speed := 350,
      bullet_count := 5, spread_angle := 3/10, cooldown_timer := 0 }
  else if weapon_type = "RIFLE" then
    { weapon_type, damage := 25, fire_rate := 1/2, bullet_speed := 600,
      bullet_count := 1, spread_angle := 0, cooldown_timer := 0 }
  else if weapon_type = "PLASMA_GUN" then
    { weapon_type, damage := 15, fire_rate := 1/4, bullet_speed := 450,
      bullet_count := 2, spread_angle := 1/10, cooldown_timer := 0 }
  else
    { weapon_type, damage := 10, fire_rate := 3/20, bullet_speed := 400,
      bullet_count := 1, spread_angle := 0, cooldown_timer := 0 }

/-- `Weapon.update dt`: the cooldown only ticks down while positive. -/
def Weapon.update (w : Weapon) (dt : ℚ) : Weapon :=
  if w.cooldown_timer > 0 then
    { w with cooldown_timer := w.cooldown_timer - dt }
  else w

/-- `Weapon.can_fire`. -/
def Weapon.can_fire (w : Weapon) : Prop := w.cooldown_timer ≤ 0

instance (w : Weapon) : Decidable w.can_fire := by
  unfold Weapon.can_fire; infer_instance

/-- `Weapon.shoot x y angle`: empty list when the cooldown has not elapsed,
otherwise `bullet_count` bullets (single-bullet branch and spread branch as
in the source) and the cooldown reset to `fire_rate`. -/
def Weapon.shoot (w : Weapon) (x y angle : ℚ) : List Bullet × Weapon :=
  if ¬ w.can_fire then ([], w)
  else
    let bullets :=
      if w.bullet_count = 1 then
        [{ x, y, angle, speed := w.bullet_speed, damage := w.damage }]
      else
        (List.range w.bullet_count).map fun i : ℕ =>
          let offset : ℚ :=
            ((i : ℚ) - ((w.bullet_count : ℚ) - 1) / 2) * w.spread_angle
          { x, y, angle := angle + offset, speed := w.bullet_speed,
            damage := w.damage }
    (bullets, { w with cooldown_timer := w.fire_rate })

/-- `Player` state (player.py).  `base_speed` / `base_damage` are the shadow
attributes dynamically added by `Powerup.activate` (`hasattr` in
`Powerup.deactivate` is modelled by `Option`: `none` until first written).
The rect, size, color and facing angle are omitted. -/
structure Player where
  x : ℚ
  y : ℚ
  speed : ℚ
  max_hp : ℚ
  hp : ℚ
  damage : ℤ
  has_shield : Bool
  is_invincible : Bool
  base_speed : Option ℚ
  base_damage : Option ℤ
deriving Repr, DecidableEq

/-- `Player.__init__` with configuration `speed`, `max_hp`, `damage`
(defaults 5, 100, 10): full hp, no shield, not invincible, no shadow
fields. -/
def Player.init (x y : ℚ) (speed : ℚ) (max_hp : ℚ) (damage : ℤ) : Player :=
  { x, y, speed, max_hp, hp := max_hp, damage,
    has_shield := false, is_invincible := false,
    base_speed := none, base_damage := none }

/-- `Player.take_damage amount`: invincibility blocks all damage, a shield
absorbs one hit and breaks, otherwise hp is reduced and clamped at 0.
Returns the updated player and the Python return value (alive flag). -/
def Player.take_damage (p : Player) (amount : ℚ) : Player × Bool :=
  if p.is_invincible then (p, true)
  else if p.has_shield then ({ p with has_shield := false }, true)
  else
    let p1 := { p with hp := max 0 (p.hp - amount) }
    (p1, decide (0 < p1.hp))

/-- `Player.heal amount`: hp is increased and clamped at `max_hp`. -/
def Player.heal (p : Player) (amount : ℚ) : Player :=
  { p with hp := min p.max_hp (p.hp + amount) }

/-- The WASD movement displacement computed by `Player.update` before the
screen-boundary clamp: axis deltas in {-1, 0, 1} from the held keys, a
`0.707` scale on each axis when both are nonzero, then
`delta * speed * dt * 60`. -/
def player_move_delta (w s a d : Bool) (speed dt : ℚ) : ℚ × ℚ :=
  let dy : ℚ := (if w then -1 else 0) + (if s then 1 else 0)
  let dx : ℚ := (if a then -1 else 0) + (if d then 1 else 0)
  let scaled :=
    if dx ≠ 0 ∧ dy ≠ 0 then (dx * (707/1000), dy * (707/1000)) else (dx, dy)
  (scaled.1 * speed * dt * 60, scaled.2 * speed * dt * 60)

/-- Squared Euclidean length of a movement displacement. -/
def move_dist_sq (delta : ℚ × ℚ) : ℚ := delta.1 ^ 2 + delta.2 ^ 2

/-- `Powerup` state (powerup.py).  The `name` and `color` fields are
omitted. -/
structure Powerup where
  powerup_type : String
  duration : ℚ
  time_remaining : ℚ
  active : Bool
  speed_multiplier : ℚ
  damage_multiplier : ℚ
  shield : Bool
  invincible : Bool
deriving Repr, DecidableEq

/-- `Powerup.__init__` / `create_powerup` with the default 10-second
duration: the per-type effect table (SHIELD and INVINCIBILITY override the
duration). -/
def create_powerup (powerup_type : String) : Powerup :=
  if powerup_type = "SPEED" then
    { powerup_type, duration := 10, time_remaining := 10, active := false,
      speed_multiplier := 3/2, damage_multiplier := 1,
      shield := false, invincible := false }
  else if powerup_type = "DAMAGE" then
    { powerup_type, duration := 10, time_remaining := 10, active := false,
      speed_multiplier := 1, damage_multiplier := 2,
      shield := false, invincible := false }
  else if powerup_type = "SHIELD" then
    { powerup_type, duration := 15, time_remaining := 15, active := false,
      speed_multiplier := 1, damage_multiplier := 1,
      shield := true, invincible := false }
  else if powerup_type = "INVINCIBILITY" then
    { powerup_type, duration := 5, time_remaining := 5, active := false,
      speed_multiplier := 1, damage_multiplier := 3/2,
      shield := false, invincible := true }
  else
    { powerup_type, duration := 10, time_remaining := 10, active := false,
      speed_multiplier := 1, damage_multiplier := 1,
      shield := false, invincible := false }

/-- `Powerup.activate player`: marks the powerup active and applies each
effect, saving `player.speed` / `player.damage` into the shadow fields
before multiplying. -/
def Powerup.activate (pw : Powerup) (pl : Player) : Powerup × Player :=
  let pl1 :=
    if pw.speed_multiplier ≠ 1 then
      { pl with base_speed := some pl.speed,
                speed := pl.speed * pw.speed_multiplier }
    else pl
  let pl2 :=
    if pw.damage_multiplier ≠ 1 then
      { pl1 with base_damage := some pl1.damage,
                 damage := pyInt ((pl1.damage : ℚ) * pw.damage_multiplier) }
    else pl1
  let pl3 := if pw.shield then { pl2 with has_shield := true } else pl2
  let pl4 := if pw.invincible then { pl3 with is_invincible := true } else pl3
  ({ pw with active := true }, pl4)

/-- `Powerup.deactivate player`: marks the powerup inactive and reverses
each effect from the shadow fields (`hasattr` check is `Option.isSome`;
the shadow fields are never cleared). -/
def Powerup.deactivate (pw : Powerup) (pl : Player) : Powerup × Player :=
  let pl1 :=
    if pw.speed_multiplier ≠ 1 then
      match pl.base_speed with
      | some b => { pl with speed := b }
      | none => pl
    else pl
  let pl2 :=
    if pw.damage_multiplier ≠ 1 then
      match pl1.base_damage with
      | some b => { pl1 with damage := b }
      | none => pl1
    else pl1
  let pl3 := if pw.shield then { pl2 with has_shield := false } else pl2
  let pl4 :=
    if pw.invincible then { pl3 with is_invincible := false } else pl3
  ({ pw with active := false }, pl4)

/-- `Powerup.update dt player`: inactive powerups report `False` untouched;
otherwise the timer ticks down and the powerup deactivates (once) when it
reaches zero.  Returns (still-active flag, powerup, player). -/
def Powerup.update (pw : Powerup) (dt : ℚ) (pl : Player) :
    Bool × Powerup × Player :=
  if !pw.active then (false, pw, pl)
  else
    let pw1 := { pw with time_remaining := pw.time_remaining - dt }
    if pw1.time_remaining ≤ 0 then
      let (pw2, pl2) := pw1.deactivate pl
      (false, pw2, pl2)
    else (true, pw1, pl)

/-- `self.max_weapons = 3` from `Inventory.__init__`. -/
def max_weapons : ℤ := 3

/-- `Inventory` state (inventory.py). -/
structure Inventory where
  weapons : List (Option Weapon)
  active_weapon_index : ℤ
  powerups : List Powerup
  coins : ℤ
deriving Repr, DecidableEq

/-- `Inventory.__init__`: a pistol in slot 0, two empty slots, no
powerups, no coins. -/
def Inventory.init : Inventory :=
  { weapons := [some (create_weapon "PISTOL"), none, none]
    active_weapon_index := 0
    powerups := []
    coins := 0 }

/-- `Inventory.switch_weapon index`: succeeds only when
`0 ≤ index < max_weapons` and the slot is occupied. -/
def Inventory.switch_weapon (inv : Inventory) (index : ℤ) :
    Bool × Inventory :=
  if 0 ≤ index ∧ index < max_weapons ∧
      (inv.weapons.getD index.toNat none).isSome then
    (true, { inv with active_weapon_index := index })
  else (false, inv)

/-- `Inventory.add_powerup`. -/
def Inventory.add_powerup (inv : Inventory) (pw : Powerup) : Inventory :=
  { inv with powerups := inv.powerups ++ [pw] }

/-- `Inventory.add_coins`. -/
def Inventory.add_coins (inv : Inventory) (amount : ℤ) : Inventory :=
  { inv with coins := inv.coins + amount }

/-- `Inventory.spend_coins amount`: deducts and returns `True` exactly when
`coins ≥ amount`. -/
def Inventory.spend_coins (inv : Inventory) (amount : ℤ) :
    Bool × Inventory :=
  if inv.coins ≥ amount then (true, { inv with coins := inv.coins - amount })
  else (false, inv)

/-- The loop body of `Inventory.update_powerups`: update each powerup in
order, threading the player, and keep those whose `update` returned
`True`. -/
def update_powerups_list (dt : ℚ) :
    List Powerup → Player → List Powerup × Player
  | [], pl => ([], pl)
  | pw :: rest, pl =>
    let (alive, pw1, pl1) := pw.update dt pl
    let (tail, pl2) := update_powerups_list dt rest pl1
    (if alive then pw1 :: tail else tail, pl2)

/-- `Inventory.update_powerups dt player`. -/
def Inventory.update_powerups (inv : Inventory) (dt : ℚ) (pl : Player) :
    Inventory × Player :=
  let (ps, pl1) := update_powerups_list dt inv.powerups pl
  ({ inv with powerups := ps }, pl1)

/-- An `Upgrade` record (upgrade_shop.py); the display name and description
are omitted. -/
structure Upgrade where
  cost : ℤ
  upgrade_type : String
  value : ℚ
  purchase_count : ℕ
deriving Repr, DecidableEq

/-- The "Max HP +20" catalog entry of `UpgradeShop.__init__`. -/
def hp_upgrade : Upgrade :=
  { cost := 50, upgrade_type := "HP", value := 20, purchase_count := 0 }

/-- The "Speed +10%" catalog entry of `UpgradeShop.__init__`. -/
def speed_upgrade : Upgrade :=
  { cost := 40, upgrade_type := "SPEED", value := 1/10, purchase_count := 0 }

/-- The "Damage +15%" catalog entry of `UpgradeShop.__init__`. -/
def damage_upgrade : Upgrade :=
  { cost := 60, upgrade_type := "DAMAGE", value := 3/20,
    purchase_count := 0 }

/-- The "Fire Rate +10%" catalog entry of `UpgradeShop.__init__`. -/
def fire_rate_upgrade : Upgrade :=
  { cost := 50, upgrade_type := "FIRE_RATE", value := 1/10,
    purchase_count := 0 }

/-- `UpgradeShop.purchase_upgrade upgrade player inventory`: spends the
coins (failing without any mutation when they do not suffice), then applies
the typed effect and bumps the purchase counter.  Returns the success flag
and the updated upgrade, player and inventory. -/
def purchase_upgrade (u : Upgrade) (pl : Player) (inv : Inventory) :
    Bool × Upgrade × Player × Inventory :=
  let spent := inv.spend_coins u.cost
  if !spent.1 then (false, u, pl, spent.2)
  else
    let inv1 := spent.2
    let pl1 :=
      if u.upgrade_type = "HP" then
        { pl with max_hp := pl.max_hp + u.value,
                  hp := min (pl.hp + u.value) (pl.max_hp + u.value) }
      else if u.upgrade_type = "SPEED" then
        { pl with speed := pl.speed + pl.speed * u.value }
      else if u.upgrade_type = "DAMAGE" then
        { pl with damage := pl.damage + pyInt ((pl.damage : ℚ) * u.value) }
      else pl
    let inv2 :=
      if u.upgrade_type = "FIRE_RATE" then
        { inv1 with weapons := inv1.weapons.map (Option.map fun w =>
            { w with fire_rate := w.fire_rate * (1 - u.value) }) }
      else inv1
    (true, { u with purchase_count := u.purchase_count + 1 }, pl1, inv2)

/-- `World` state (world.py); the name, description and theme colors are
omitted. -/
structure World where
  world_id : ℤ
  rounds_to_complete : ℤ
  enemy_hp_multiplier : ℚ
  enemy_speed_multiplier : ℚ
  enemy_damage_multiplier : ℚ
  rounds_completed : ℤ
  is_complete : Bool
deriving Repr, DecidableEq

/-- `World.__init__` from a config entry (`world`, `rounds`, the three
multipliers): no rounds completed, not complete. -/
def World.init (world_id rounds : ℤ) (hp_mult speed_mult dmg_mult : ℚ) :
    World :=
  { world_id, rounds_to_complete := rounds,
    enemy_hp_multiplier := hp_mult,
    enemy_speed_multiplier := speed_mult,
    enemy_damage_multiplier := dmg_mult,
    rounds_completed := 0, is_complete := false }

/-- `World.complete_round`: increments the counter and reports (and
records) completion once it reaches the target. -/
def World.complete_round (w : World) : World × Bool :=
  let w1 := { w with rounds_completed := w.rounds_completed + 1 }
  if w1.rounds_completed ≥ w1.rounds_to_complete then
    ({ w1 with is_complete := true }, true)
  else (w1, false)

/-- `World.apply_enemy_modifiers base_stats`: multiplies by the world's
three multipliers, with `int()` truncation on hp and damage. -/
def World.apply_enemy_modifiers (w : World) (s : EnemyStats) : EnemyStats :=
  { hp := pyInt ((s.hp : ℚ) * w.enemy_hp_multiplier)
    speed := s.speed * w.enemy_speed_multiplier
    damage := pyInt ((s.damage : ℚ) * w.enemy_damage_multiplier) }

/-- Placeholder world used to give list lookups a total type; the Python
code would raise `IndexError` where this default is reached, and every
theorem below carries an index-validity hypothesis instead. -/
def default_world : World := World.init 0 0 1 1 1

/-- `WorldManager` state (world.py).  The Python `current_world` attribute
is an alias of `worlds[current_world_index]` and is modelled by the
`WorldManager.current_world` function below. -/
structure WorldManager where
  worlds : List World
  current_world_index : ℕ
deriving Repr, DecidableEq

/-- The `current_world` alias: `worlds[current_world_index]`. -/
def WorldManager.current_world (wm : WorldManager) : World :=
  wm.worlds.getD wm.current_world_index default_world

/-- `WorldManager.advance_to_next_world`: no-op returning `False` at the
last world. -/
def WorldManager.advance_to_next_world (wm : WorldManager) :
    WorldManager × Bool :=
  if wm.current_world_index < wm.worlds.length - 1 then
    ({ wm with current_world_index := wm.current_world_index + 1 }, true)
  else (wm, false)

/-- `WorldManager.complete_round`: delegates to the current world and
advances on world completion. -/
def WorldManager.complete_round (wm : WorldManager) :
    WorldManager × Bool :=
  let step := wm.current_world.complete_round
  let wm1 := { wm with
    worlds := wm.worlds.set wm.current_world_index step.1 }
  if step.2 then wm1.advance_to_next_world else (wm1, false)

/-- `WorldManager.apply_enemy_modifiers`: delegates to the current
world. -/
def WorldManager.apply_enemy_modifiers (wm : WorldManager) (s : EnemyStats) :
    EnemyStats :=
  wm.current_world.apply_enemy_modifiers s

/-- The two `WorldManager` mutations available during a playthrough (no
reset): `complete_round` and `advance_to_next_world`. -/
inductive WmOp where
  | complete_op
  | advance_op
deriving Repr, DecidableEq

/-- Apply one playthrough operation to the manager. -/
def apply_world_op (wm : WorldManager) : WmOp → WorldManager
  | WmOp.complete_op => wm.complete_round.1
  | WmOp.advance_op => wm.advance_to_next_world.1

/-- Run a sequence of playthrough operations. -/
def run_world_ops : WorldManager → List WmOp → WorldManager
  | wm, [] => wm
  | wm, op :: ops => run_world_ops (apply_world_op wm op) ops

/-- Sample world 1 (3 rounds, neutral multipliers) with two of its three
rounds already completed. -/
def world_one : World := { World.init 1 3 1 1 1 with rounds_completed := 2 }

/-- Sample world 2 (4 rounds, 1.2/1.1/1.1 multipliers). -/
def world_two : World := World.init 2 4 (6/5) (11/10) (11/10)

/-- The `player` sub-record written by `create_save_data`. -/
structure PlayerSave where
  hp : ℚ
  max_hp : ℚ
  speed : ℚ
  damage : ℤ
  x : ℚ
  y : ℚ
deriving Repr, DecidableEq

/-- The `inventory` sub-record written by `create_save_data`: the per-slot
weapon type or null, the active slot, the coins. -/
structure InventorySave where
  weapons : List (Option String)
  active_weapon_index : ℤ
  coins : ℤ
deriving Repr, DecidableEq

/-- The `world_progress` sub-record written by `create_save_data`. -/
structure WorldProgressSave where
  current_world_index : ℕ
  rounds_completed : ℤ
deriving Repr, DecidableEq

/-- The `round_state` sub-record written by `create_save_data`. -/
structure RoundStateSave where
  current_round : ℤ
  enemies_per_round : ℤ
deriving Repr, DecidableEq

/-- The `stats` sub-record written by `create_save_data`. -/
structure StatsSave where
  kills : ℤ
  playtime : ℚ
deriving Repr, DecidableEq

/-- A fully populated save record: exactly the fields `create_save_data`
writes (save_manager.py).  The version tag and timestamp added by
`SaveManager.save_game` are not part of the game state. -/
structure SaveData where
  world_number : ℤ
  round_number : ℤ
  player : PlayerSave
  inventory : InventorySave
  world_progress : WorldProgressSave
  round_state : RoundStateSave
  stats : StatsSave
deriving Repr, DecidableEq

/-- `create_save_data player inventory world_manager round_manager kills
playtime` (save_manager.py). -/
def create_save_data (pl : Player) (inv : Inventory) (wm : WorldManager)
    (rm : RoundManager) (kills : ℤ) (playtime : ℚ) : SaveData :=
  { world_number := (wm.current_world_index : ℤ) + 1
    round_number := rm.current_round
    player := { hp := pl.hp, max_hp := pl.max_hp, speed := pl.speed,
                damage := pl.damage, x := pl.x, y := pl.y }
    inventory := { weapons := inv.weapons.map (Option.map Weapon.weapon_type)
                   active_weapon_index := inv.active_weapon_index
                   coins := inv.coins }
    world_progress := { current_world_index := wm.current_world_index
                        rounds_completed := wm.current_world.rounds_completed }
    round_state := { current_round := rm.current_round
                     enemies_per_round := rm.enemies_per_round }
    stats := { kills, playtime } }

/-- Decoding of one saved weapon slot in `restore_from_save`: the Python
`if weapon_type:` truthiness test treats both `None` and the empty string
as empty slots. -/
def decode_weapon_slot : Option String → Option Weapon
  | some t => if t ≠ "" then some (create_weapon t) else none
  | none => none

/-- The slot-restoring loop of `restore_from_save`:
`for i, weapon_type in enumerate(weapon_types): inventory.weapons[i] = …`. -/
def restore_weapon_slots :
    List (Option Weapon) → ℕ → List (Option String) → List (Option Weapon)
  | slots, _, [] => slots
  | slots, i, t :: ts =>
    restore_weapon_slots (slots.set i (decode_weapon_slot t)) (i + 1) ts

/-- `restore_from_save save_data player inventory world_manager
round_manager` (save_manager.py), returning the updated objects and the
saved kill count (the Python return value).  The record type is total, so
the `.get` defaults the source supplies for missing keys never apply — this
matches the fully-populated records the round-trip claim ranges over. -/
def restore_from_save (sd : SaveData) (pl : Player) (inv : Inventory)
    (wm : WorldManager) (rm : RoundManager) :
    Player × Inventory × WorldManager × RoundManager × ℤ :=
  let pl1 := { pl with
    hp := sd.player.hp, max_hp := sd.player.max_hp,
    speed := sd.player.speed, damage := sd.player.damage,
    x := sd.player.x, y := sd.player.y }
  let inv1 := { inv with
    weapons := restore_weapon_slots inv.weapons 0 sd.inventory.weapons
    active_weapon_index := sd.inventory.active_weapon_index
    coins := sd.inventory.coins }
  let wi := sd.world_progress.current_world_index
  let wm1 := { wm with
    current_world_index := wi
    worlds := wm.worlds.set wi
      { wm.worlds.getD wi default_world with
        rounds_completed := sd.world_progress.rounds_completed } }
  let rm1 := { rm with
    current_round := sd.round_state.current_round
    enemies_per_round := sd.round_state.enemies_per_round }
  (pl1, inv1, wm1, rm1, sd.stats.kills)

/-- A sample fully populated, consistent save record: world 2 (index 1),
round 4, rifle / empty / shotgun weapon slots, 37 coins, 25 kills. -/
def sample_save : SaveData :=
  { world_number := 2
    round_number := 4
    player := { hp := 80, max_hp := 120, speed := 11/2, damage := 12,
                x := 100, y := 200 }
    inventory := { weapons := [some "RIFLE", none, some "SHOTGUN"]
                   active_weapon_index := 2
                   coins := 37 }
    world_progress := { current_world_index := 1, rounds_completed := 1 }
    round_state := { current_round := 4, enemies_per_round := 11 }
    stats := { kills := 25, playtime := 300 } }

/-- Helper: neither playthrough operation ever decreases
`current_world_index`. -/
theorem index_le_apply_world_op (wm : WorldManager) (op : WmOp) :
    wm.current_world_index ≤ (apply_world_op wm op).current_world_index := by
  cases op with
  | complete_op =>
    simp only [apply_world_op, WorldManager.complete_round,
      WorldManager.advance_to_next_world]
    split_ifs <;> simp
  | advance_op =>
    simp only [apply_world_op, WorldManager.advance_to_next_world]
    split_ifs <;> simp

/-- Claim C7: during a playthrough `current_world_index` never decreases;
`advance_to_next_world` at the last world returns False and changes
nothing; and a `complete_round` that reaches the current world's round
target, when a next world exists, advances the index by 1 and makes
`apply_enemy_modifiers` use the next world's multipliers. -/
theorem c7_world_index_progression (wm : WorldManager) (ops : List WmOp)
    (st : EnemyStats) :
    wm.current_world_index ≤ (run_world_ops wm ops).current_world_index ∧
    (wm.current_world_index = wm.worlds.length - 1 →
      wm.advance_to_next_world = (wm, false)) ∧
    (wm.current_world_index + 1 < wm.worlds.length →
      wm.current_world.rounds_to_complete ≤
        wm.current_world.rounds_completed + 1 →
      wm.complete_round.1.current_world_index =
        wm.current_world_index + 1 ∧
      wm.complete_round.1.apply_enemy_modifiers st =
        (wm.worlds.getD (wm.current_world_index + 1)
          default_world).apply_enemy_modifiers st) := by
  refine ⟨?_, ?_, ?_⟩
  · induction ops generalizing wm with
    | nil => exact le_refl _
    | cons op ops ih =>
      exact le_trans (index_le_apply_world_op wm op)
        (ih (apply_world_op wm op))
  · intro hlast
    unfold WorldManager.advance_to_next_world
    rw [if_neg]
    omega
  · intro hnext hreach
    have hw1 : wm.current_world.complete_round =
        ({ wm.current_world with
            rounds_completed := wm.current_world.rounds_completed + 1
            is_complete := true }, true) := by
      unfold World.complete_round
      rw [if_pos]
      exact hreach
    generalize hg : ({ wm.current_world with
        rounds_completed := wm.current_world.rounds_completed + 1
        is_complete := true } : World) = w1 at hw1
    have h1 : wm.complete_round =
        ({ wm with
            worlds := wm.worlds.set wm.current_world_index w1 } :
          WorldManager).advance_to_next_world := by
      simp [WorldManager.complete_round, hw1]
    have h2 : ({ wm with
        worlds := wm.worlds.set wm.current_world_index w1 } :
          WorldManager).advance_to_next_world =
        ({ wm with
            worlds := wm.worlds.set wm.current_world_index w1
            current_world_index := wm.current_world_index + 1 }, true) := by
      unfold WorldManager.advance_to_next_world
      rw [if_pos]
      simp only [List.length_set]
      omega
    rw [h1, h2]
    refine ⟨rfl, ?_⟩
    simp only [WorldManager.apply_enemy_modifiers,
      WorldManager.current_world]
    have hget : (wm.worlds.set wm.current_world_index w1).getD
          (wm.current_world_index + 1) default_world =
        wm.worlds.getD (wm.current_world_index + 1) default_world := by
      rw [List.getD_eq_getElem?_getD, List.getD_eq_getElem?_getD,
        List.getElem?_set_ne]
      omega
    rw [hget]

/-- Witness for C7: completing the last required round of sample world 1
(target 3, 2 done) in a two-world manager advances the index from 0 to 1,
and advancing at the last world (index 1 of 2) is a rejected no-op. -/
theorem c7_world_index_progression_witness :
    ((WorldManager.mk [world_one, world_two] 0).complete_round.1).current_world_index = 0 + 1 ∧
    (WorldManager.mk [world_one, world_two] 1).advance_to_next_world =
      (WorldManager.mk [world_one, world_two] 1, false) :=
  ⟨((c7_world_index_progression
        (WorldManager.mk [world_one, world_two] 0) []
        (EnemyStats.mk 80 30 10)).2.2
      (by decide) (by decide)).1,
   (c7_world_index_progression
        (WorldManager.mk [world_one, world_two] 1) []
        (EnemyStats.mk 80 30 10)).2.1 (by decide)⟩

/-- Helper: `create_weapon` always records the requested type string. -/
theorem create_weapon_type (t : String) : (create_weapon t).weapon_type = t := by
  unfold create_weapon
  split_ifs <;> rfl

/-- Helper: decoding a saved weapon slot and reading back its type is the
identity on slots that are not the (falsy) empty string. -/
theorem decode_slot_roundtrip (t : Option String) (h : t ≠ some "") :
    (decode_weapon_slot t).map Weapon.weapon_type = t := by
  cases t with
  | none => rfl
  | some s =>
    have hs : s ≠ "" := fun he => h (by rw [he])
    simp [decode_weapon_slot, hs, create_weapon_type]

/-- Claim C2: for a fully populated, consistent save record
(`world_number = world_progress.current_world_index + 1`,
`round_state.current_round = round_number`, a valid world index, 3 weapon
slots, no empty-string weapon type), `restore_from_save` into arbitrary
3-slot objects followed by `create_save_data` reproduces `world_number`,
`round_number`, `inventory.weapons`, `inventory.coins` and `stats.kills`. -/
theorem c2_save_roundtrip (sd : SaveData) (pl : Player) (inv : Inventory)
    (wm : WorldManager) (rm : RoundManager) (playtime : ℚ)
    (hw : sd.world_number = (sd.world_progress.current_world_index : ℤ) + 1)
    (hr : sd.round_number = sd.round_state.current_round)
    (hwi : sd.world_progress.current_world_index < wm.worlds.length)
    (hlen : inv.weapons.length = 3)
    (hslen : sd.inventory.weapons.length = 3)
    (hns : ∀ t ∈ sd.inventory.weapons, t ≠ some "") :
    (create_save_data (restore_from_save sd pl inv wm rm).1
      (restore_from_save sd pl inv wm rm).2.1
      (restore_from_save sd pl inv wm rm).2.2.1
      (restore_from_save sd pl inv wm rm).2.2.2.1
      (restore_from_save sd pl inv wm rm).2.2.2.2
      playtime).world_number = sd.world_number ∧
    (create_save_data (restore_from_save sd pl inv wm rm).1
      (restore_from_save sd pl inv wm rm).2.1
      (restore_from_save sd pl inv wm rm).2.2.1
      (restore_from_save sd pl inv wm rm).2.2.2.1
      (restore_from_save sd pl inv wm rm).2.2.2.2
      playtime).round_number = sd.round_number ∧
    (create_save_data (restore_from_save sd pl inv wm rm).1
      (restore_from_save sd pl inv wm rm).2.1
      (restore_from_save sd pl inv wm rm).2.2.1
      (restore_from_save sd pl inv wm rm).2.2.2.1
      (restore_from_save sd pl inv wm rm).2.2.2.2
      playtime).inventory.weapons = sd.inventory.weapons ∧
    (create_save_data (restore_from_save sd pl inv wm rm).1
      (restore_from_save sd pl inv wm rm).2.1
      (restore_from_save sd pl inv wm rm).2.2.1
      (restore_from_save sd pl inv wm rm).2.2.2.1
      (restore_from_save sd pl inv wm rm).2.2.2.2
      playtime).inventory.coins = sd.inventory.coins ∧
    (create_save_data (restore_from_save sd pl inv wm rm).1
      (restore_from_save sd pl inv wm rm).2.1
      (restore_from_save sd pl inv wm rm).2.2.1
      (restore_from_save sd pl inv wm rm).2.2.2.1
      (restore_from_save sd pl inv wm rm).2.2.2.2
      playtime).stats.kills = sd.stats.kills := by
  refine ⟨?_, ?_, ?_, ?_, ?_⟩ <;>
    simp only [create_save_data, restore_from_save]
  · exact hw.symm
  · exact hr.symm
  · obtain ⟨x, y, z, hxyz⟩ := List.length_eq_three.mp hlen
    obtain ⟨a, b, c, habc⟩ := List.length_eq_three.mp hslen
    have hna : a ≠ some "" := hns a (by rw [habc]; simp)
    have hnb : b ≠ some "" := hns b (by rw [habc]; simp)
    have hnc : c ≠ some "" := hns c (by rw [habc]; simp)
    rw [hxyz, habc]
    show ((restore_weapon_slots [x, y, z] 0 [a, b, c]).map
      (Option.map Weapon.weapon_type)) = [a, b, c]
    have hslots : restore_weapon_slots [x, y, z] 0 [a, b, c] =
        [decode_weapon_slot a, decode_weapon_slot b, decode_weapon_slot c] := by
      simp [restore_weapon_slots, List.set]
    rw [hslots]
    simp only [List.map_cons, List.map_nil]
    rw [decode_slot_roundtrip a hna, decode_slot_roundtrip b hnb,
      decode_slot_roundtrip c hnc]

/-- Witness for C2 at a concrete two-world save (world 2, round 4, rifle /
empty / shotgun slots, 37 coins, 25 kills) restored into fresh objects. -/
theorem c2_save_roundtrip_witness :
    (create_save_data
      (restore_from_save sample_save (Player.init 0 0 5 100 10)
        Inventory.init (WorldManager.mk [world_one, world_two] 0)
        RoundManager.init).1
      (restore_from_save sample_save (Player.init 0 0 5 100 10)
        Inventory.init (WorldManager.mk [world_one, world_two] 0)
        RoundManager.init).2.1
      (restore_from_save sample_save (Player.init 0 0 5 100 10)
        Inventory.init (WorldManager.mk [world_one, world_two] 0)
        RoundManager.init).2.2.1
      (restore_from_save sample_save (Player.init 0 0 5 100 10)
        Inventory.init (WorldManager.mk [world_one, world_two] 0)
        RoundManager.init).2.2.2.1
      (restore_from_save sample_save (Player.init 0 0 5 100 10)
        Inventory.init (WorldManager.mk [world_one, world_two] 0)
        RoundManager.init).2.2.2.2
      0).inventory.weapons = sample_save.inventory.weapons ∧
    (create_save_data
      (restore_from_save sample_save (Player.init 0 0 5 100 10)
        Inventory.init (WorldManager.mk [world_one, world_two] 0)
        RoundManager.init).1
      (restore_from_save sample_save (Player.init 0 0 5 100 10)
        Inventory.init (WorldManager.mk [world_one, world_two] 0)
        RoundManager.init).2.1
      (restore_from_save sample_save (Player.init 0 0 5 100 10)
        Inventory.init (WorldManager.mk [world_one, world_two] 0)
        RoundManager.init).2.2.1
      (restore_from_save sample_save (Player.init 0 0 5 100 10)
        Inventory.init (WorldManager.mk [world_one, world_two] 0)
        RoundManager.init).2.2.2.1
      (restore_from_save sample_save (Player.init 0 0 5 100 10)
        Inventory.init (WorldManager.mk [world_one, world_two] 0)
        RoundManager.init).2.2.2.2
      0).world_number = sample_save.world_number :=
  ⟨(c2_save_roundtrip sample_save (Player.init 0 0 5 100 10)
      Inventory.init (WorldManager.mk [world_one, world_two] 0)
      RoundManager.init 0 (by decide) (by decide) (by decide) (by decide)
      (by decide) (by decide)).2.2.1,
   (c2_save_roundtrip sample_save (Player.init 0 0 5 100 10)
      Inventory.init (WorldManager.mk [world_one, world_two] 0)
      RoundManager.init 0 (by decide) (by decide) (by decide) (by decide)
      (by decide) (by decide)).1⟩

/-- Claim C3 evaluated on the code: a single SPEED powerup is activated and
deactivated exactly once, restoring the pre-buff speed of 5; an inactive
powerup's update deactivates nothing and leaves the player untouched; but
two stacked SPEED powerups — the second activated while the first is still
running — leave the player's speed at 7.5 after both expire, because the
second `activate` overwrote the saved baseline with the already-buffed
speed: the speed/damage values do not return to the pre-buff baseline. -/
theorem c3_stacked_powerup_baseline_bug :
    ((Inventory.init.add_powerup
        ((create_powerup "SPEED").activate
          (Player.init 0 0 5 100 10)).1).update_powerups 11
        ((create_powerup "SPEED").activate
          (Player.init 0 0 5 100 10)).2).2.speed = 5 ∧
    ((Inventory.init.add_powerup
        ((create_powerup "SPEED").activate
          (Player.init 0 0 5 100 10)).1).update_powerups 11
        ((create_powerup "SPEED").activate
          (Player.init 0 0 5 100 10)).2).1.powerups = [] ∧
    (create_powerup "SPEED").update 11 (Player.init 0 0 5 100 10) =
      (false, create_powerup "SPEED", Player.init 0 0 5 100 10) ∧
    (((Inventory.init.add_powerup
          ((create_powerup "SPEED").activate
            (Player.init 0 0 5 100 10)).1).add_powerup
          ((create_powerup "SPEED").activate
            ((create_powerup "SPEED").activate
              (Player.init 0 0 5 100 10)).2).1).update_powerups 11
        ((create_powerup "SPEED").activate
          ((create_powerup "SPEED").activate
            (Player.init 0 0 5 100 10)).2).2).1.powerups = [] ∧
    (((Inventory.init.add_powerup
          ((create_powerup "SPEED").activate
            (Player.init 0 0 5 100 10)).1).add_powerup
          ((create_powerup "SPEED").activate
            ((create_powerup "SPEED").activate
              (Player.init 0 0 5 100 10)).2).1).update_powerups 11
        ((create_powerup "SPEED").activate
          ((create_powerup "SPEED").activate
            (Player.init 0 0 5 100 10)).2).2).2.speed = 15/2 ∧
    (Player.init 0 0 5 100 10).speed = 5 := by
  refine ⟨?_, ?_, ?_, ?_, ?_, rfl⟩ <;>
    norm_num [Inventory.init, Inventory.add_powerup,
      Inventory.update_powerups, update_powerups_list, create_powerup,
      Powerup.activate, Powerup.update, Powerup.deactivate, Player.init]

/-- Claim C8 (amended): with one vertical and one horizontal key held, the
squared displacement of a frame of movement is `0.999698 = 2 × 0.707²`
times the squared axis-aligned displacement `(speed·dt·60)²` — the code
scales each axis by the literal `0.707`, an approximation of `1/√2`, so
diagonal movement is slightly slower than (not exactly equal to, and in
particular not `√2` faster than) single-axis movement, whose squared
displacement is exactly `(speed·dt·60)²`. -/
theorem c8_diagonal_speed_ratio (w s a d : Bool) (speed dt : ℚ) :
    (w ≠ s → a ≠ d →
      move_dist_sq (player_move_delta w s a d speed dt) =
        (999698 / 1000000) * (speed * dt * 60) ^ 2) ∧
    (w ≠ s → a = d →
      move_dist_sq (player_move_delta w s a d speed dt) =
        (speed * dt * 60) ^ 2) ∧
    (w = s → a ≠ d →
      move_dist_sq (player_move_delta w s a d speed dt) =
        (speed * dt * 60) ^ 2) := by
  refine ⟨?_, ?_, ?_⟩ <;> intro h1 h2 <;>
    cases w <;> cases s <;> cases a <;> cases d <;>
    simp_all [player_move_delta, move_dist_sq] <;> ring

/-- Witness for C8 at up+right versus up-only input, speed 5, dt 1. -/
theorem c8_diagonal_speed_ratio_witness :
    move_dist_sq (player_move_delta true false false true 5 1) =
      (999698 / 1000000) * ((5 : ℚ) * 1 * 60) ^ 2 ∧
    move_dist_sq (player_move_delta true false false false 5 1) =
      ((5 : ℚ) * 1 * 60) ^ 2 :=
  ⟨(c8_diagonal_speed_ratio true false false true 5 1).1
      (by decide) (by decide),
   (c8_diagonal_speed_ratio true false false false 5 1).2.1
      (by decide) (by decide)⟩

/-- Counterexample to Claim C8 as stated: at speed 5 and dt 1 the
Euclidean distance moved diagonally (up+right) differs from the distance
moved with a single key (up), 0.707·√2·300 ≈ 299.955 versus 300. -/
theorem c8_diagonal_distance_differs :
    Real.sqrt ((move_dist_sq
        (player_move_delta true false false true 5 1) : ℚ) : ℝ) ≠
    Real.sqrt ((move_dist_sq
        (player_move_delta true false false false 5 1) : ℚ) : ℝ) := by
  have h1 : move_dist_sq (player_move_delta true false false true 5 1) =
      4498641 / 50 := by
    norm_num [player_move_delta, move_dist_sq]
  have h2 : move_dist_sq (player_move_delta true false false false 5 1) =
      90000 := by
    norm_num [player_move_delta, move_dist_sq]
  rw [h1, h2]
  intro h
  have h3 : ((4498641 / 50 : ℚ) : ℝ) = ((90000 : ℚ) : ℝ) :=
    (Real.sqrt_inj (by positivity) (by positivity)).mp h
  norm_num at h3

/-- Claim C10: for every Player with `is_invincible` true, `take_damage`
returns True for any amount and leaves the whole player — in particular hp
and `has_shield` — unchanged: invincibility is checked before the shield,
so a shield held while invincible is never consumed by a hit. -/
theorem c10_invincible_blocks_before_shield (p : Player) (amount : ℚ)
    (h : p.is_invincible = true) :
    p.take_damage amount = (p, true) := by
  simp [Player.take_damage, h]

/-- Witness for C10 at a shielded, invincible player hit for 40 damage. -/
theorem c10_invincible_blocks_before_shield_witness :
    ({ Player.init 0 0 5 100 10 with
        is_invincible := true
        has_shield := true } : Player).take_damage 40 =
      ({ Player.init 0 0 5 100 10 with
          is_invincible := true
          has_shield := true }, true) :=
  c10_invincible_blocks_before_shield _ 40 rfl

/-- Claim C4: every mutation of hp — `take_damage` with a non-negative
amount, `heal` with a non-negative amount, and the shop HP upgrade —
preserves `0 ≤ hp ≤ max_hp`: `take_damage` clamps at 0 from below, `heal`
clamps at `max_hp` from above, and the HP upgrade caps the healed hp at the
new maximum. -/
theorem c4_hp_stays_in_bounds (p : Player) (inv : Inventory) (amount : ℚ)
    (h0 : 0 ≤ p.hp) (h1 : p.hp ≤ p.max_hp) (ha : 0 ≤ amount) :
    (0 ≤ (p.take_damage amount).1.hp ∧
      (p.take_damage amount).1.hp ≤ (p.take_damage amount).1.max_hp) ∧
    (0 ≤ (p.heal amount).hp ∧ (p.heal amount).hp ≤ (p.heal amount).max_hp) ∧
    (0 ≤ (purchase_upgrade hp_upgrade p inv).2.2.1.hp ∧
      (purchase_upgrade hp_upgrade p inv).2.2.1.hp ≤
        (purchase_upgrade hp_upgrade p inv).2.2.1.max_hp) := by
  have hmax : (0 : ℚ) ≤ p.max_hp := le_trans h0 h1
  refine ⟨?_, ?_, ?_⟩
  · unfold Player.take_damage
    split_ifs with hi hs
    · exact ⟨h0, h1⟩
    · exact ⟨h0, h1⟩
    · refine ⟨le_max_left _ _, max_le hmax ?_⟩
      calc p.hp - amount ≤ p.hp := by linarith
        _ ≤ p.max_hp := h1
  · exact ⟨le_min hmax (by linarith), min_le_left _ _⟩
  · by_cases hc : (50 : ℤ) ≤ inv.coins
    · have hmin : (0 : ℚ) ≤ min (p.hp + 20) (p.max_hp + 20) :=
        le_min (by linarith) (by linarith)
      have hle : min (p.hp + 20) (p.max_hp + 20) ≤ p.max_hp + 20 :=
        min_le_right _ _
      simp [purchase_upgrade, Inventory.spend_coins, hp_upgrade, hc, hmin,
        hle]
    · simp [purchase_upgrade, Inventory.spend_coins, hp_upgrade, hc, h0, h1]

/-- Witness for C4 at a fresh player (hp 100 of 100) damaged or healed by
30 with a fresh inventory. -/
theorem c4_hp_stays_in_bounds_witness :
    (0 ≤ ((Player.init 0 0 5 100 10).take_damage 30).1.hp ∧
      ((Player.init 0 0 5 100 10).take_damage 30).1.hp ≤
        ((Player.init 0 0 5 100 10).take_damage 30).1.max_hp) ∧
    (0 ≤ ((Player.init 0 0 5 100 10).heal 30).hp ∧
      ((Player.init 0 0 5 100 10).heal 30).hp ≤
        ((Player.init 0 0 5 100 10).heal 30).max_hp) ∧
    (0 ≤ (purchase_upgrade hp_upgrade (Player.init 0 0 5 100 10)
        Inventory.init).2.2.1.hp ∧
      (purchase_upgrade hp_upgrade (Player.init 0 0 5 100 10)
          Inventory.init).2.2.1.hp ≤
        (purchase_upgrade hp_upgrade (Player.init 0 0 5 100 10)
            Inventory.init).2.2.1.max_hp) :=
  c4_hp_stays_in_bounds (Player.init 0 0 5 100 10) Inventory.init 30
    (by norm_num [Player.init]) (by norm_num [Player.init]) (by norm_num)

/-- Claim C9: invalid runtime operations are rejected as no-ops with a
failure result: `switch_weapon` with an out-of-range index or an empty slot
returns False and leaves the inventory unchanged; `purchase_upgrade`
without enough coins returns False and leaves the upgrade, player and
inventory unchanged; `spend_coins` deducts if and only if the coins
suffice. -/
theorem c9_invalid_ops_are_noops (inv : Inventory) (i : ℤ) (u : Upgrade)
    (pl : Player) (amount : ℤ) :
    (¬ (0 ≤ i ∧ i < max_weapons ∧
        (inv.weapons.getD i.toNat none).isSome) →
      inv.switch_weapon i = (false, inv)) ∧
    (inv.coins < u.cost → purchase_upgrade u pl inv = (false, u, pl, inv)) ∧
    ((inv.spend_coins amount).1 = true ↔ amount ≤ inv.coins) ∧
    (inv.spend_coins amount).2.coins =
      (if amount ≤ inv.coins then inv.coins - amount else inv.coins) := by
  refine ⟨?_, ?_, ?_, ?_⟩
  · intro h
    simp only [Inventory.switch_weapon, if_neg h]
  · intro h
    have hfail : ¬ inv.coins ≥ u.cost := by omega
    simp [purchase_upgrade, Inventory.spend_coins, hfail]
  · unfold Inventory.spend_coins
    split_ifs with h
    · simpa using h
    · simpa using h
  · unfold Inventory.spend_coins
    split_ifs with h <;> simp

/-- Witness for C9: switching to out-of-range slot 5 and to empty slot 1 of
a fresh inventory fail without change, and a fresh inventory (0 coins)
cannot buy the 50-coin HP upgrade. -/
theorem c9_invalid_ops_are_noops_witness :
    Inventory.init.switch_weapon 5 = (false, Inventory.init) ∧
    Inventory.init.switch_weapon 1 = (false, Inventory.init) ∧
    purchase_upgrade hp_upgrade (Player.init 0 0 5 100 10) Inventory.init =
      (false, hp_upgrade, Player.init 0 0 5 100 10, Inventory.init) ∧
    ((Inventory.init.spend_coins 1).1 = true ↔
      (1 : ℤ) ≤ Inventory.init.coins) :=
  ⟨(c9_invalid_ops_are_noops Inventory.init 5 hp_upgrade
      (Player.init 0 0 5 100 10) 1).1 (by decide),
   (c9_invalid_ops_are_noops Inventory.init 1 hp_upgrade
      (Player.init 0 0 5 100 10) 1).1 (by decide),
   (c9_invalid_ops_are_noops Inventory.init 5 hp_upgrade
      (Player.init 0 0 5 100 10) 1).2.1 (by decide),
   (c9_invalid_ops_are_noops Inventory.init 5 hp_upgrade
      (Player.init 0 0 5 100 10) 1).2.2.1⟩

/-- Claim C1 (amended): in an active round, `update` with all required
enemies spawned and zero alive completes the round — round number +1,
enemies_per_round +2, active flag cleared, break timer set to 3.0 — and in
break, `update` that brings the break timer to 0 or below re-enters the
active state with the spawned count and spawn timer reset to 0.  In the
concrete scenario (round 1, 5 of 5 spawned, 0 alive) the completing update
leaves the manager in break with `get_round_info().enemies_remaining = 2`
(not 0: `enemies_per_round` is already 7 while the spawned count stays 5
until the next round starts), and once the 3-second break elapses the
manager is active in round 2 with `enemies_per_round = 7`. -/
theorem c1_round_completion_and_break (m : RoundManager) (dt : ℚ) :
    (m.round_active = true →
      m.enemies_spawned_this_round = m.enemies_per_round →
      (m.update dt 0).1.current_round = m.current_round + 1 ∧
      (m.update dt 0).1.enemies_per_round = m.enemies_per_round + 2 ∧
      (m.update dt 0).1.round_active = false ∧
      (m.update dt 0).1.break_timer = 3 ∧
      (m.update dt 0).2 = none) ∧
    (m.round_active = false → m.break_timer - dt ≤ 0 →
      (m.update dt 0).1.round_active = true ∧
      (m.update dt 0).1.enemies_spawned_this_round = 0 ∧
      (m.update dt 0).1.spawn_timer = 0 ∧
      (m.update dt 0).1.current_round = m.current_round ∧
      (m.update dt 0).1.enemies_per_round = m.enemies_per_round) ∧
    (({ RoundManager.init with
          round_active := true
          enemies_spawned_this_round := 5 } : RoundManager).update dt
            0).1.get_round_info =
      { round := 2, enemies_remaining := 2, in_break := true,
        break_time := 3 } ∧
    ((({ RoundManager.init with
          round_active := true
          enemies_spawned_this_round := 5 } : RoundManager).update dt
            0).1.update 3 0).1 =
      { current_round := 2, enemies_per_round := 7,
        enemies_spawned_this_round := 0, round_active := true,
        round_complete := false, spawn_timer := 0, break_timer := 0 } := by
  refine ⟨?_, ?_, ?_, ?_⟩
  · intro hact hsp
    simp [RoundManager.update, RoundManager.complete_round, hact, hsp,
      break_duration]
  · intro hact hbt
    simp [RoundManager.update, RoundManager.start_round, hact, hbt]
  · norm_num [RoundManager.update, RoundManager.complete_round,
      RoundManager.get_round_info, RoundManager.init, break_duration]
  · have h3 : (3 : ℚ) - 3 ≤ 0 := by norm_num
    simp [RoundManager.update, RoundManager.complete_round,
      RoundManager.start_round, RoundManager.init, break_duration, h3]

/-- Witness for C1 at the concrete completing update (round 1, 5 of 5
spawned, no survivors) followed by a 3-second break tick. -/
theorem c1_round_completion_and_break_witness :
    (({ RoundManager.init with
        round_active := true
        enemies_spawned_this_round := 5 } : RoundManager).update (1/10)
          0).1.current_round = 2 ∧
    ((({ RoundManager.init with
        round_active := true
        enemies_spawned_this_round := 5 } : RoundManager).update (1/10)
          0).1.update 3 0).1.round_active = true :=
  ⟨((c1_round_completion_and_break
      { RoundManager.init with
        round_active := true
        enemies_spawned_this_round := 5 } (1/10)).1 rfl rfl).1,
   by rw [(c1_round_completion_and_break
      { RoundManager.init with
        round_active := true
        enemies_spawned_this_round := 5 } (1/10)).2.2.2]⟩

/-- Counterexample to Claim C1 as stated: after the completing update of
the round-1 scenario the manager is in break, but
`get_round_info().enemies_remaining` is 2, not 0. -/
theorem c1_remaining_not_zero_in_break :
    (({ RoundManager.init with
        round_active := true
        enemies_spawned_this_round := 5 } : RoundManager).update (1/10)
          0).1.get_round_info.in_break = true ∧
    ¬ (({ RoundManager.init with
        round_active := true
        enemies_spawned_this_round := 5 } : RoundManager).update (1/10)
          0).1.get_round_info.enemies_remaining = 0 := by
  decide

/-- Helper: `Weapon.update` over nonnegative time steps totalling less
than the current positive cooldown ticks the cooldown down by exactly the
total, leaving it positive. -/
theorem cooldown_after_updates (dts : List ℚ) (w : Weapon)
    (hpos : 0 < w.cooldown_timer) (hn : ∀ d ∈ dts, 0 ≤ d)
    (hs : dts.sum < w.cooldown_timer) :
    (dts.foldl Weapon.update w).cooldown_timer =
      w.cooldown_timer - dts.sum ∧
    0 < (dts.foldl Weapon.update w).cooldown_timer := by
  induction dts generalizing w with
  | nil => simpa using hpos
  | cons d ds ih =>
    have hd : 0 ≤ d := hn d (by simp)
    have hds : ∀ x ∈ ds, 0 ≤ x := fun x hx => hn x (by simp [hx])
    have hsum : 0 ≤ ds.sum := List.sum_nonneg hds
    have hsum2 : d + ds.sum < w.cooldown_timer := by
      simpa [List.sum_cons] using hs
    have hw1 : (Weapon.update w d).cooldown_timer =
        w.cooldown_timer - d := by
      simp [Weapon.update, hpos]
    have hfin := ih (Weapon.update w d) (by rw [hw1]; linarith) hds
      (by rw [hw1]; linarith)
    refine ⟨?_, hfin.2⟩
    rw [List.foldl_cons, hfin.1, hw1, List.sum_cons]
    ring

/-- Claim C5: `shoot` returns the empty list and leaves the weapon (so the
cooldown) unchanged while the cooldown has not elapsed; otherwise it
returns exactly `bullet_count` bullets, bullet `i` angled
`angle + (i − (bullet_count−1)/2) × spread_angle` and stamped with the
weapon's damage and bullet speed, and resets the cooldown to `fire_rate`;
consequently after a successful shot, updates totalling strictly less than
`fire_rate` leave the next `shoot` call empty. -/
theorem c5_weapon_shoot_cooldown (w : Weapon) (x y angle : ℚ)
    (dts : List ℚ) :
    (0 < w.cooldown_timer → w.shoot x y angle = ([], w)) ∧
    (w.cooldown_timer ≤ 0 →
      (w.shoot x y angle).1.length = w.bullet_count ∧
      (∀ i : ℕ, i < w.bullet_count →
        (w.shoot x y angle).1[i]? = some
          { x, y,
            angle := angle +
              ((i : ℚ) - ((w.bullet_count : ℚ) - 1) / 2) * w.spread_angle,
            speed := w.bullet_speed, damage := w.damage }) ∧
      (w.shoot x y angle).2.cooldown_timer = w.fire_rate) ∧
    (w.cooldown_timer ≤ 0 → 1 ≤ w.bullet_count → (∀ d ∈ dts, 0 ≤ d) →
      dts.sum < w.fire_rate →
      (w.shoot x y angle).1 ≠ [] ∧
      ((dts.foldl Weapon.update (w.shoot x y angle).2).shoot x y angle).1 =
        []) := by
  have blocked : ∀ w' : Weapon, 0 < w'.cooldown_timer →
      w'.shoot x y angle = ([], w') := by
    intro w' h
    simp [Weapon.shoot, Weapon.can_fire, not_le.mpr h]
  refine ⟨blocked w, ?_, ?_⟩
  · intro h
    have hfire : w.shoot x y angle =
        ((if w.bullet_count = 1 then
            [{ x, y, angle, speed := w.bullet_speed, damage := w.damage }]
          else
            (List.range w.bullet_count).map fun i : ℕ =>
              { x, y,
                angle := angle +
                  ((i : ℚ) - ((w.bullet_count : ℚ) - 1) / 2) *
                    w.spread_angle,
                speed := w.bullet_speed, damage := w.damage }),
         { w with cooldown_timer := w.fire_rate }) := by
      simp only [Weapon.shoot, Weapon.can_fire, not_le]
      rw [if_neg]
      simp only [not_not, not_lt]
      exact h
    rw [hfire]
    by_cases hbc : w.bullet_count = 1
    · rw [if_pos hbc]
      refine ⟨by simp [hbc], ?_, rfl⟩
      intro i hi
      have hi0 : i = 0 := by omega
      subst hi0
      simp [hbc]
    · rw [if_neg hbc]
      refine ⟨by rw [List.length_map, List.length_range], ?_, rfl⟩
      intro i hi
      rw [List.getElem?_map, List.getElem?_range hi, Option.map_some']
  · intro h hbc hn hs
    have hsum : 0 ≤ dts.sum := List.sum_nonneg hn
    have hcf : w.can_fire := h
    have hshot2 : (w.shoot x y angle).2.cooldown_timer = w.fire_rate := by
      simp only [Weapon.shoot, if_neg (not_not_intro hcf)]
    constructor
    · have hlen : (w.shoot x y angle).1.length = w.bullet_count := by
        simp only [Weapon.shoot, if_neg (not_not_intro hcf)]
        by_cases hbc1 : w.bullet_count = 1
        · simp [hbc1]
        · rw [if_neg hbc1, List.length_map, List.length_range]
      intro hnil
      rw [hnil] at hlen
      simp at hlen
      omega
    · have hfold := cooldown_after_updates dts (w.shoot x y angle).2
        (by rw [hshot2]; linarith) hn (by rw [hshot2]; exact hs)
      rw [blocked _ hfold.2]

/-- Witness for C5: a fresh pistol (cooldown 0, fire rate 0.15) fires, and
after two 0.05-second updates (total 0.1 < 0.15) the second shot is
empty. -/
theorem c5_weapon_shoot_cooldown_witness :
    ((create_weapon "PISTOL").shoot 0 0 0).1 ≠ [] ∧
    (([1/20, 1/20].foldl Weapon.update
        ((create_weapon "PISTOL").shoot 0 0 0).2).shoot 0 0 0).1 = [] :=
  (c5_weapon_shoot_cooldown (create_weapon "PISTOL") 0 0 0
      [1/20, 1/20]).2.2
    (by norm_num [create_weapon]) (by norm_num [create_weapon])
    (by intro d hd; simp at hd; norm_num [hd])
    (by norm_num [create_weapon])

/-- Claim C6: `get_enemy_stats` at round `r ≥ 1` returns hp
`int(30 × 1.15^(r−1))`, speed `80 × 1.05^(r−1)` and damage
`int(10 × 1.10^(r−1))`; at round 3 the exponent is 2, giving hp 39
(⌊39.675⌋), speed 88.2 and damage 12 (⌊12.1⌋). -/
theorem c6_enemy_stats_geometric (m : RoundManager) (r : ℤ)
    (hr : m.current_round = r) (h1 : 1 ≤ r) :
    m.get_enemy_stats.hp = pyInt (30 * (23/20 : ℚ) ^ (r - 1)) ∧
    m.get_enemy_stats.speed = 80 * (21/20 : ℚ) ^ (r - 1) ∧
    m.get_enemy_stats.damage = pyInt (10 * (11/10 : ℚ) ^ (r - 1)) ∧
    (r = 3 → m.get_enemy_stats =
      { speed := 441/5, hp := 39, damage := 12 }) := by
  subst hr
  refine ⟨rfl, rfl, rfl, ?_⟩
  intro h3
  unfold RoundManager.get_enemy_stats
  rw [h3]
  norm_num [pyInt, base_enemy_hp, base_enemy_speed, base_enemy_damage,
    hp_scale, speed_scale, damage_scale]

/-- Witness for C6 at a round-3 manager. -/
theorem c6_enemy_stats_geometric_witness :
    ({ RoundManager.init with current_round := 3 } :
        RoundManager).get_enemy_stats =
      { speed := 441/5, hp := 39, damage := 12 } :=
  (c6_enemy_stats_geometric
    { RoundManager.init with current_round := 3 } 3 rfl (by norm_num)).2.2.2
    rfl
